import Mathlib

/-!
# Verification of the beats template subsystem

A shallow embedding of the template compiler, document-shape normalizer and
install protocol from `libbeat/template` (files `es_loader.go`,
`file_loader.go`, `config.go` and the three unnamed package files), together
with theorems settling the frozen claims about them.

Go's `common.MapStr` (a `map[string]interface{}`) is modelled as an
association list of string keys and `Value`s; `Doc.get`, `Doc.insert` and
`Doc.erase` model map lookup, assignment and `delete`.  External
collaborators (version parsing, format-string rendering, YAML/JSON loading,
the recursive field walk `Processor.Process`, JSON printing) are not part of
the given sources and are threaded through an explicit `Env` record of
functions, so every theorem quantifies over their behaviour.
-/

/-- A JSON-like value: the `interface{}` payload of a `common.MapStr` entry. -/
inductive Value where
  | str : String → Value
  | nat : Nat → Value
  | int : Int → Value
  | bool : Bool → Value
  | list : List Value → Value
  | obj : List (String × Value) → Value

/-- A Go `common.MapStr` / `map[string]interface{}` as an association list.
Lookup takes the first matching key, so the list behaves as a map. -/
abbrev Doc := List (String × Value)

/-- Map lookup: `m[k]` with its `ok` flag, as `Option`. -/
def Doc.get : Doc → String → Option Value
  | [], _ => none
  | (k, v) :: rest, key => if k = key then some v else Doc.get rest key

/-- Go `delete(m, k)`: removes every binding of `k` (a Go map has at most one). -/
def Doc.erase : Doc → String → Doc
  | [], _ => []
  | (k, v) :: rest, key =>
    if k = key then Doc.erase rest key else (k, v) :: Doc.erase rest key

/-- Go `m[k] = v`: replaces the binding of `k` in place, or appends it. -/
def Doc.insert : Doc → String → Value → Doc
  | [], key, v => [(key, v)]
  | (k, w) :: rest, key, v =>
    if k = key then (key, v) :: rest else (k, w) :: Doc.insert rest key v

/-- Embeds `common.MapStr.Put` with the dotted key already split: walks the path,
creating (or replacing) intermediate objects, and sets the final key. -/
def Doc.putPath : Doc → List String → Value → Doc
  | d, [], _ => d
  | d, [k], v => Doc.insert d k v
  | d, k :: ks, v =>
    match Doc.get d k with
    | some (Value.obj sub) => Doc.insert d k (Value.obj (Doc.putPath sub ks v))
    | _ => Doc.insert d k (Value.obj (Doc.putPath [] ks v))

mutual
/-- Embeds `common.MapStr.DeepUpdate`: for each binding in `u`, merge recursively when
both sides hold objects, otherwise overwrite. -/
def Doc.deepUpdate : Doc → Doc → Doc
  | d, [] => d
  | d, (k, v) :: rest => Doc.deepUpdate (Doc.deepUpdateKey d k v) rest
termination_by _d u => sizeOf u

/-- One key of a `DeepUpdate`: merge if both sides hold objects, else assign. -/
def Doc.deepUpdateKey (d : Doc) (k : String) : Value → Doc
  | Value.obj uo =>
    match Doc.get d k with
    | some (Value.obj dobj) => Doc.insert d k (Value.obj (Doc.deepUpdate dobj uo))
    | _ => Doc.insert d k (Value.obj uo)
  | v => Doc.insert d k v
termination_by v => sizeOf v
end

/-- An Elasticsearch/beat version `major.minor.bugfix` (`common.Version` is
external to the sources; the spec fixes it as a totally ordered triple). -/
structure Version where
  major : Nat
  minor : Nat
  bugfix : Nat
deriving DecidableEq

/-- Embeds `common.Version.LessThan`: lexicographic strict order on the triple. -/
def Version.lessThan (v w : Version) : Bool :=
  if v.major = w.major then
    if v.minor = w.minor then decide (v.bugfix < w.bugfix)
    else decide (v.minor < w.minor)
  else decide (v.major < w.major)

/-- Modelled from the spec: a `ClusterVersion` "must be valid (non-zero) or is
defaulted from the product's own version" (`common.Version.IsValid` is external
to the sources). -/
def Version.isValid (v : Version) : Bool :=
  !(v.major == 0 && v.minor == 0 && v.bugfix == 0)

/-- Embeds `common.Version.String`: the canonical `major.minor.bugfix` rendering. -/
def Version.toStr (v : Version) : String :=
  toString v.major ++ "." ++ toString v.minor ++ "." ++ toString v.bugfix

/-- Helper for `strContains`: is the first list a leading segment of the second? -/
def charsLeadSeg : List Char → List Char → Bool
  | [], _ => true
  | _ :: _, [] => false
  | a :: as, b :: bs => a == b && charsLeadSeg as bs

/-- Helper for `strContains`: does the first list occur contiguously in the second? -/
def charsOccurIn (sub : List Char) : List Char → Bool
  | [] => charsLeadSeg sub []
  | b :: bs => charsLeadSeg sub (b :: bs) || charsOccurIn sub bs

/-- Go `strings.Contains`: substring test, modelled on character lists. -/
def strContains (s sub : String) : Bool :=
  charsOccurIn sub.toList s.toList


/-! ## Data model: configuration, field definitions, template (config.go, part_002) -/

/-- Modelled from the spec: a node of the `FieldDefinition` tree ("name, type
tag, nested sub-fields (ordered, recursive)"); `mapping.Field` itself is
external to the given sources. -/
inductive FieldDef where
  | node (name : String) (ftype : String) (sub : List FieldDef) : FieldDef

/-- Embeds `mapping.Fields`: an ordered field-definition tree. -/
abbrev Fields := List FieldDef

/-- Raw bytes (`[]byte`) handed to the loaders as a field source. -/
abbrev Bytes := List Nat

/-- The package-level mutable slices of part_002 (`dynamicTemplates`,
`defaultFields`), threaded explicitly through each compile call. -/
structure Globals where
  dynamicTemplates : List Doc
  defaultFields : List String

/-- The template `Kind` enumeration of config.go. -/
inductive Kind where
  | legacy
  | index
  | component
deriving DecidableEq

/-- The nested `JSON` block of `TemplateConfig`. -/
structure JSONConfig where
  enabled : Bool
  path : String
  name : String

/-- Embeds `TemplateSettings` (config.go): index and `_source` setting overrides;
`none` models a nil Go map. -/
structure TemplateSettings where
  index : Option Doc
  source : Option Doc

/-- Embeds `TemplateConfig` (config.go). -/
structure TemplateConfig where
  enabled : Bool
  name : String
  pattern : String
  fields : String
  json : JSONConfig
  appendFields : Fields
  overwrite : Bool
  settings : TemplateSettings
  order : Int
  priority : Int
  kind : Kind
  composedOf : List String
  dataStream : Option (List (String × String))

/-- Embeds `DefaultConfig` (config.go). -/
def DefaultConfig : TemplateConfig :=
  { enabled := true, name := "", pattern := "", fields := ""
  , json := { enabled := false, path := "", name := "" }
  , appendFields := [], overwrite := false
  , settings := { index := none, source := none }
  , order := 1, priority := 150, kind := Kind.legacy
  , composedOf := [], dataStream := none }

/-- Embeds `beat.Info`, restricted to the two fields the template package reads. -/
structure BeatInfo where
  version : String
  indexPrefix : String

/-- The external collaborators of the template package, threaded explicitly:
format-string rendering (`fmtstr` with the fixed event of `New`), version
parsing (`common.NewVersion`), file/YAML/JSON loading (with path resolution),
`mapping.ConcatFields`, the recursive field walk (`Processor.Process`, whose
file is not among the given sources; the spec requires it to be a
deterministic per-call transformation appending to the two accumulators), and
`common.MapStr.StringToPrint`. -/
structure Env where
  render : String → Except String String
  parseVersion : String → Except String Version
  readJSONFile : String → Except String Doc
  loadFieldsFile : String → Except String Fields
  loadYamlBytes : Bytes → Except String Fields
  concatFields : Fields → Fields → Except String Fields
  process : Fields → Globals → Except String (Doc × Globals)
  printDoc : Doc → String

/-- Key constants of part_002. -/
def aliasesKey : String := "aliases"

def composedOfKey : String := "composed_of"

def dataStreamKey : String := "data_stream"

def indexPatternsKey : String := "index_patterns"

def mappingsKey : String := "mappings"

def orderKey : String := "order"

def priorityKey : String := "priority"

def settingsKey : String := "settings"

/-- Default values of part_002. -/
def defaultDateDetection : Bool := false

def defaultTotalFieldsLimit : Nat := 10000

def defaultNumberOfRoutingShards : Nat := 30

/-- The `Template` struct of part_002 (the mutex is irrelevant to a
single-flow model and omitted). -/
structure Template where
  name : String
  pattern : String
  beatVersion : Version
  beatName : String
  esVersion : Version
  config : TemplateConfig
  migration : Bool
  order : Int
  priority : Int

/-- Embeds `New` (part_002): resolves name and pattern (with defaults derived from
the beat name and parsed beat version), renders name, pattern and the
composed-of entries through the format-string collaborator, and defaults an
invalid cluster version to the beat version. -/
def New (env : Env) (beatVersion : String) (beatName : String) (esVersion : Version)
    (config : TemplateConfig) (migration : Bool) : Except String Template := do
  let bV ← env.parseVersion beatVersion
  let name0 := if config.name = "" then beatName ++ "-" ++ bV.toStr else config.name
  let pattern0 := if config.pattern = "" then name0 ++ "-*" else config.pattern
  let name ← env.render name0
  let pattern ← env.render pattern0
  let composedOf ← config.composedOf.mapM env.render
  let esVersion := if esVersion.isValid then esVersion else bV
  Except.ok
    { name := name, pattern := pattern, beatVersion := bV, beatName := beatName
    , esVersion := esVersion, config := { config with composedOf := composedOf }
    , migration := migration, order := config.order, priority := config.priority }

/-- Embeds `Template.GetName`. -/
def Template.GetName (t : Template) : String := t.name

/-- Embeds `Template.GetPattern`. -/
def Template.GetPattern (t : Template) : String := t.pattern

/-- Embeds `buildPatternSettings` (part_002): singular `template` pattern key before
major 6, `index_patterns` with a one-element list from major 6 on. -/
def buildPatternSettings (ver : Version) (pattern : String) : String × Value :=
  if ver.major < 6 then ("template", Value.str pattern)
  else (indexPatternsKey, Value.list [Value.str pattern])

/-- Embeds `buildDynTmpl` (part_002): the catch-all `strings_as_keyword` dynamic
template, with the older string/not_analyzed syntax on major 2. -/
def buildDynTmpl (ver : Version) : Doc :=
  let strMapping : Doc := [("ignore_above", Value.nat 1024), ("type", Value.str "keyword")]
  let strMapping :=
    if ver.major = 2 then
      Doc.insert (Doc.insert strMapping "type" (Value.str "string")) "index"
        (Value.str "not_analyzed")
    else strMapping
  [("strings_as_keyword",
    Value.obj [("mapping", Value.obj strMapping), ("match_mapping_type", Value.str "string")])]

/-- Embeds `buildMappings` (part_002): assembles `_meta`/`date_detection`/
`dynamic_templates`/`properties` (plus `_source` when set) and wraps the
result per major version (`_default_`, `doc`, or typeless). -/
def buildMappings (beatVersion esVersion : Version) (beatName : String)
    (properties : Doc) (dynTmpls : List Doc) (source : Doc) : Doc :=
  let mapping : Doc :=
    [ ("_meta", Value.obj [("version", Value.str beatVersion.toStr), ("beat", Value.str beatName)])
    , ("date_detection", Value.bool defaultDateDetection)
    , ("dynamic_templates", Value.list (dynTmpls.map Value.obj))
    , ("properties", Value.obj properties) ]
  let mapping :=
    if 0 < source.length then Doc.insert mapping "_source" (Value.obj source) else mapping
  if esVersion.major = 2 then
    [("_default_", Value.obj (Doc.putPath mapping ["_all", "norms", "enabled"] (Value.bool false)))]
  else if esVersion.major < 6 then
    [("_default_", Value.obj mapping)]
  else if esVersion.major = 6 then
    [("doc", Value.obj mapping)]
  else
    mapping

/-- Embeds `buildIdxSettings` (part_002): default index settings, routing shards for
6.1 ≤ version with major < 7, the default-field query for major ≥ 7, then a
deep update with the user's settings. -/
def buildIdxSettings (ver : Version) (userSettings : Doc) (defaultFields : List String) : Doc :=
  let indexSettings : Doc :=
    [ ("refresh_interval", Value.str "5s")
    , ("mapping", Value.obj [("total_fields", Value.obj [("limit", Value.nat defaultTotalFieldsLimit)])]) ]
  let version61 : Version := ⟨6, 1, 0⟩
  let indexSettings :=
    if ver.lessThan version61 = false ∧ ver.major < 7 then
      Doc.putPath indexSettings ["number_of_routing_shards"] (Value.nat defaultNumberOfRoutingShards)
    else indexSettings
  let indexSettings :=
    if 7 ≤ ver.major then
      Doc.putPath indexSettings ["query", "default_field"]
        (Value.list ((defaultFields ++ ["fields.*"]).map Value.str))
    else indexSettings
  Doc.deepUpdate indexSettings userSettings

/-- Embeds `Template.baseSettings` (part_002): pattern key, `order`, `priority`, and
the optional `composed_of` / `data_stream` entries. -/
def Template.baseSettings (t : Template) : Doc :=
  let kp := buildPatternSettings t.esVersion t.pattern
  let m : Doc := [(kp.1, kp.2), (orderKey, Value.int t.order), (priorityKey, Value.int t.priority)]
  let m :=
    if 0 < t.config.composedOf.length then
      Doc.insert m composedOfKey (Value.list (t.config.composedOf.map Value.str))
    else m
  match t.config.dataStream with
  | some ds => Doc.insert m dataStreamKey (Value.obj (ds.map fun p => (p.1, Value.str p.2)))
  | none => m

/-- Embeds `Template.Generate` (part_002): base settings plus `mappings` (with the
catch-all dynamic template appended last) and `settings.index`.  The two
package-level slices read here are passed explicitly. -/
def Template.Generate (t : Template) (properties : Doc) (dynamicTemplates : List Doc)
    (defaultFields : List String) : Doc :=
  let m := t.baseSettings
  let m := Doc.insert m mappingsKey
    (Value.obj (buildMappings t.beatVersion t.esVersion t.beatName properties
      (dynamicTemplates ++ [buildDynTmpl t.esVersion])
      ((t.config.settings.source).getD [])))
  Doc.insert m settingsKey
    (Value.obj [("index", Value.obj (buildIdxSettings t.esVersion
      ((t.config.settings.index).getD []) defaultFields))])

/-- Embeds `Template.load` (part_002): resets the two package-level accumulators,
optionally concatenates the configured append-fields, runs the field walk, and
generates the document from the resulting properties and accumulators.  The
initial `Globals` model the accumulators' pre-call content. -/
def Template.load (env : Env) (t : Template) (fields : Fields) (_g : Globals) :
    Except String Doc × Globals :=
  let g : Globals := { dynamicTemplates := [], defaultFields := [] }
  let fieldsR :=
    if 0 < t.config.appendFields.length then env.concatFields fields t.config.appendFields
    else Except.ok fields
  match fieldsR with
  | Except.error e => (Except.error e, g)
  | Except.ok fields2 =>
    match env.process fields2 g with
    | Except.error e => (Except.error e, g)
    | Except.ok (properties, g2) =>
      (Except.ok (t.Generate properties g2.dynamicTemplates g2.defaultFields), g2)

/-- Embeds `Template.LoadFile` (part_002). -/
def Template.LoadFile (env : Env) (t : Template) (file : String) (g : Globals) :
    Except String Doc × Globals :=
  match env.loadFieldsFile file with
  | Except.error e => (Except.error e, g)
  | Except.ok fields => t.load env fields g

/-- Embeds `Template.LoadBytes` (part_002). -/
def Template.LoadBytes (env : Env) (t : Template) (data : Bytes) (g : Globals) :
    Except String Doc × Globals :=
  match env.loadYamlBytes data with
  | Except.error e => (Except.error e, g)
  | Except.ok fields => t.load env fields g

/-- Embeds `Template.LoadMinimal` (part_002): base settings plus settings/mappings
derived only from the configuration overrides. -/
def Template.LoadMinimal (t : Template) : Except String Doc :=
  let m := t.baseSettings
  let m :=
    match t.config.settings.index with
    | some idx => Doc.insert m settingsKey (Value.obj [("index", Value.obj idx)])
    | none => m
  let m :=
    match t.config.settings.source with
    | some src =>
      Doc.insert m mappingsKey
        (Value.obj (buildMappings t.beatVersion t.esVersion t.beatName [] [] src))
    | none => m
  Except.ok m

/-! ## Template builder (part_000 / part_001) -/

/-- A Go error or runtime panic, as surfaced by the loader layer. -/
inductive GoErr where
  | err : String → GoErr
  | panic : String → GoErr

/-- Embeds `templateBuilder.template` (part_000 ll.51-61 / part_001 ll.47-57): `none`
for a disabled config, otherwise the constructed `Template`. -/
def templateBuilder.template (env : Env) (config : TemplateConfig) (info : BeatInfo)
    (esVersion : Version) (migration : Bool) : Except String (Option Template) :=
  if config.enabled = false then Except.ok none
  else
    match New env info.version info.indexPrefix esVersion config migration with
    | Except.error e => Except.error ("error creating template instance: " ++ e)
    | Except.ok t => Except.ok (some t)

/-- Embeds `templateBuilder.buildBodyFromJSON` (part_000 ll.118-135): stat, read and
unmarshal of the configured JSON override (one external operation here). -/
def templateBuilder.buildBodyFromJSON (env : Env) (config : TemplateConfig) :
    Except GoErr Doc :=
  match env.readJSONFile config.json.path with
  | Except.error e => Except.error (GoErr.err ("could not unmarshal json template: " ++ e))
  | Except.ok body => Except.ok body

/-- Embeds `templateBuilder.buildBodyFromFile` (part_000 ll.137-145): loads the
fields YAML, then `tmpl.LoadFile`; a nil `tmpl` panics when dereferenced. -/
def templateBuilder.buildBodyFromFile (env : Env) (tmpl : Option Template)
    (config : TemplateConfig) (g : Globals) : Except GoErr Doc :=
  match env.loadFieldsFile config.fields with
  | Except.error e =>
    Except.error (GoErr.err ("error creating template from file " ++ config.fields ++ ": " ++ e))
  | Except.ok fields =>
    match tmpl with
    | none => Except.error (GoErr.panic "invalid memory address or nil pointer dereference")
    | some t =>
      match (t.load env fields g).1 with
      | Except.error e =>
        Except.error (GoErr.err ("error creating template from file " ++ config.fields ++ ": " ++ e))
      | Except.ok body => Except.ok body

/-- Embeds `templateBuilder.buildBodyFromFields` (part_000 ll.147-154): `tmpl.LoadBytes`
on the caller-supplied bytes; a nil `tmpl` panics when dereferenced. -/
def templateBuilder.buildBodyFromFields (env : Env) (tmpl : Option Template) (fields : Bytes)
    (g : Globals) : Except GoErr Doc :=
  match env.loadYamlBytes fields with
  | Except.error e => Except.error (GoErr.err ("error creating template: " ++ e))
  | Except.ok flds =>
    match tmpl with
    | none => Except.error (GoErr.panic "invalid memory address or nil pointer dereference")
    | some t =>
      match (t.load env flds g).1 with
      | Except.error e => Except.error (GoErr.err ("error creating template: " ++ e))
      | Except.ok body => Except.ok body

/-- Embeds `templateBuilder.buildMinimalTemplate` (part_000 ll.156-163): `tmpl.LoadMinimal`;
a nil `tmpl` panics when dereferenced. -/
def templateBuilder.buildMinimalTemplate (tmpl : Option Template) : Except GoErr Doc :=
  match tmpl with
  | none => Except.error (GoErr.panic "invalid memory address or nil pointer dereference")
  | some t =>
    match t.LoadMinimal with
    | Except.error e => Except.error (GoErr.err ("error creating mimimal template: " ++ e))
    | Except.ok body => Except.ok body

/-- The body-source selection shared by both revisions of
`templateBuilder.buildBody` (part_000 ll.68-81, and the whole of part_001's
`buildBody`, ll.59-74): JSON override, else configured fields file, else
caller-supplied bytes, else the minimal template. -/
def templateBuilder.buildBodySelect (env : Env) (tmpl : Option Template)
    (config : TemplateConfig) (fields : Option Bytes) (g : Globals) : Except GoErr Doc :=
  if config.json.enabled then templateBuilder.buildBodyFromJSON env config
  else if config.fields ≠ "" then templateBuilder.buildBodyFromFile env tmpl config g
  else
    match fields with
    | none => templateBuilder.buildMinimalTemplate tmpl
    | some bs => templateBuilder.buildBodyFromFields env tmpl bs g

/-- The `moveTemplate` closure of part_000's `buildBody` (ll.83-99), with the
loop over `settings`/`mappings`/`aliases` unrolled: collect the present keys
into a fresh map (created on first hit), delete them from the body, and nest
the collected map under `template` when non-empty. -/
def moveStep (acc : Doc × Option Doc) (key : String) : Doc × Option Doc :=
  match Doc.get acc.1 key with
  | some v => (Doc.erase acc.1 key, some (Doc.insert ((acc.2).getD []) key v))
  | none => acc

/-- See `moveStep`. -/
def moveTemplate (body : Doc) : Doc :=
  let acc := moveStep (moveStep (moveStep (body, none) settingsKey) mappingsKey) aliasesKey
  match acc.2 with
  | some ti => Doc.insert acc.1 "template" (Value.obj ti)
  | none => acc.1

/-- The Kind switch of part_000's `buildBody` (ll.101-114): component deletes
`order`/`index_patterns`, nests, and falls through to the legacy deletions of
`priority`/`composed_of`/`data_stream`; index deletes `order` and nests. -/
def templateBuilder.normalizeKind (kind : Kind) (body : Doc) : Doc :=
  match kind with
  | Kind.component =>
    let body := Doc.erase (Doc.erase body orderKey) indexPatternsKey
    let body := moveTemplate body
    Doc.erase (Doc.erase (Doc.erase body priorityKey) composedOfKey) dataStreamKey
  | Kind.legacy =>
    Doc.erase (Doc.erase (Doc.erase body priorityKey) composedOfKey) dataStreamKey
  | Kind.index =>
    moveTemplate (Doc.erase body orderKey)

/-- Embeds `templateBuilder.buildBody` as in part_000 (ll.63-116): source selection
followed by the per-Kind normalization switch. -/
def templateBuilder.buildBody (env : Env) (tmpl : Option Template) (config : TemplateConfig)
    (fields : Option Bytes) (g : Globals) : Except GoErr Doc :=
  match templateBuilder.buildBodySelect env tmpl config fields g with
  | Except.error e => Except.error e
  | Except.ok body => Except.ok (templateBuilder.normalizeKind config.kind body)

/-- Embeds `esVersionParams` (part_000 ll.165-173 / part_001 ll.123-131):
`include_type_name=true` exactly on major 6, minor 7. -/
def esVersionParams (ver : Version) : List (String × String) :=
  if ver.major = 6 ∧ ver.minor = 7 then [("include_type_name", "true")] else []

/-! ## ES loader (es_loader.go; its `buildBody` is part_001's, i.e. the plain
selection without a Kind switch) -/

/-- One call through the `ESClient.Request` interface. -/
structure ESRequest where
  method : String
  path : String
  pipeline : String
  params : List (String × String)
  body : Option Doc

/-- The `(status, body, err)` triple returned by `ESClient.Request`. -/
structure ESResponse where
  status : Int
  body : String
  fail : Option String

/-- The `ESClient` collaborator: a pure responder plus `GetVersion`. -/
structure ESClient where
  respond : ESRequest → ESResponse
  version : Version

/-- Embeds `ESLoader`, reduced to its client (possibly nil); every operation also
returns the list of requests it issued, in order. -/
structure ESLoader where
  client : Option ESClient

def indexTemplatePath : String := "/_index_template/"

/-- Embeds `ESLoader.legacyTemplateExists` (es_loader.go ll.184-190): GET
`/_cat/templates/{name}`, exists iff status 200 and the body contains the
name. -/
def ESLoader.legacyTemplateExists (l : ESLoader) (templateName : String) :
    Bool × List ESRequest :=
  match l.client with
  | none => (false, [])
  | some c =>
    let req : ESRequest :=
      { method := "GET", path := "/_cat/templates/" ++ templateName, pipeline := ""
      , params := [], body := none }
    let resp := c.respond req
    ((resp.status == 200) && strContains resp.body templateName, [req])

/-- Embeds `ESLoader.indexTemplateExists` (es_loader.go ll.192-198): GET
`/_index_template/{name}`, exists iff status 200. -/
def ESLoader.indexTemplateExists (l : ESLoader) (templateName : String) :
    Bool × List ESRequest :=
  match l.client with
  | none => (false, [])
  | some c =>
    let req : ESRequest :=
      { method := "GET", path := indexTemplatePath ++ templateName, pipeline := ""
      , params := [], body := none }
    let resp := c.respond req
    (resp.status == 200, [req])

/-- Embeds `ESLoader.loadTemplate` (es_loader.go ll.171-180): PUT the document,
failing on a transport error or a status above 300. -/
def ESLoader.loadTemplate (c : ESClient) (path : String) (params : List (String × String))
    (template : Doc) : Except String Unit × List ESRequest :=
  let req : ESRequest :=
    { method := "PUT", path := path, pipeline := "", params := params, body := some template }
  let resp := c.respond req
  let res : Except String Unit :=
    match resp.fail with
    | some e => Except.error ("couldn't load template: " ++ e ++ ". Response body: " ++ resp.body)
    | none =>
      if 300 < resp.status then Except.error ("couldn't load json. Status: " ++ toString resp.status)
      else Except.ok ()
  (res, [req])

/-- The document actually written by `ESLoader.loadLegacyTemplate`
(es_loader.go ll.131-137): only `priority` is deleted. -/
def ESLoader.loadLegacyTemplateBody (template : Doc) : Doc :=
  Doc.erase template "priority"

/-- Embeds `ESLoader.loadLegacyTemplate` (es_loader.go ll.131-137): version params,
delete `priority`, PUT to `/_template/{name}`. -/
def ESLoader.loadLegacyTemplate (c : ESClient) (templateName : String) (template : Doc) :
    Except String Unit × List ESRequest :=
  ESLoader.loadTemplate c ("/_template/" ++ templateName) (esVersionParams c.version)
    (ESLoader.loadLegacyTemplateBody template)

/-- See `ESLoader.loadIndexTemplateBody`. -/
def moveStepES (acc : Doc × Doc) (key : String) : Doc × Doc :=
  match Doc.get acc.1 key with
  | some v => (Doc.erase acc.1 key, Doc.insert acc.2 key v)
  | none => acc

/-- The document actually written by `ESLoader.loadIndexTemplate`
(es_loader.go ll.139-168): delete `order`, move `settings`/`mappings`/`aliases`
into a fresh map (the loop unrolled), and set `template` to it unconditionally. -/
def ESLoader.loadIndexTemplateBody (template : Doc) : Doc :=
  let t := Doc.erase template "order"
  let acc := moveStepES (moveStepES (moveStepES (t, []) "settings") "mappings") "aliases"
  Doc.insert acc.1 "template" (Value.obj acc.2)

/-- Embeds `ESLoader.loadIndexTemplate` (es_loader.go ll.139-168): PUT the normalized
document to `/_index_template/{name}` with nil params. -/
def ESLoader.loadIndexTemplate (c : ESClient) (templateName : String) (template : Doc) :
    Except String Unit × List ESRequest :=
  ESLoader.loadTemplate c (indexTemplatePath ++ templateName) []
    (ESLoader.loadIndexTemplateBody template)

/-- Embeds `ESLoader.templateInfo` (es_loader.go ll.114-126): build the template (nil
with nil error when disabled), and pick the reported name: `config.JSON.Name`
when the JSON override is enabled, else `template.GetName()`. -/
def ESLoader.templateInfo (env : Env) (config : TemplateConfig) (info : BeatInfo)
    (esVersion : Version) (migration : Bool) : Except String (Option Template × String) :=
  match templateBuilder.template env config info esVersion migration with
  | Except.error e => Except.error e
  | Except.ok none => Except.ok (none, "")
  | Except.ok (some t) =>
    Except.ok (some t, if config.json.enabled then config.json.name else t.GetName)

/-- Embeds `ESLoader.LoadLegacyTemplate` (es_loader.go ll.91-112).  Note the caller
checks only the error of `templateInfo`, not the nil template. -/
def ESLoader.LoadLegacyTemplate (env : Env) (l : ESLoader) (config : TemplateConfig)
    (info : BeatInfo) (fields : Option Bytes) (migration : Bool) (g : Globals) :
    Except GoErr Unit × List ESRequest :=
  match l.client with
  | none => (Except.error (GoErr.panic "invalid memory address or nil pointer dereference"), [])
  | some c =>
    match ESLoader.templateInfo env config info c.version migration with
    | Except.error e => (Except.error (GoErr.err e), [])
    | Except.ok (template, templateName) =>
      let ex := ESLoader.legacyTemplateExists l templateName
      if ex.1 && !config.overwrite then (Except.ok (), ex.2)
      else
        match templateBuilder.buildBodySelect env template config fields g with
        | Except.error e => (Except.error e, ex.2)
        | Except.ok body =>
          let res := ESLoader.loadLegacyTemplate c templateName body
          match res.1 with
          | Except.error e =>
            (Except.error (GoErr.err ("could not load template. Elasticsearch returned: " ++ e
              ++ ". Template is: " ++ env.printDoc body)), ex.2 ++ res.2)
          | Except.ok _ => (Except.ok (), ex.2 ++ res.2)

/-- Embeds `ESLoader.LoadIndexTemplate` (es_loader.go ll.65-86). -/
def ESLoader.LoadIndexTemplate (env : Env) (l : ESLoader) (config : TemplateConfig)
    (info : BeatInfo) (fields : Option Bytes) (migration : Bool) (g : Globals) :
    Except GoErr Unit × List ESRequest :=
  match l.client with
  | none => (Except.error (GoErr.panic "invalid memory address or nil pointer dereference"), [])
  | some c =>
    match ESLoader.templateInfo env config info c.version migration with
    | Except.error e => (Except.error (GoErr.err e), [])
    | Except.ok (template, templateName) =>
      let ex := ESLoader.indexTemplateExists l templateName
      if ex.1 && !config.overwrite then (Except.ok (), ex.2)
      else
        match templateBuilder.buildBodySelect env template config fields g with
        | Except.error e => (Except.error e, ex.2)
        | Except.ok body =>
          let res := ESLoader.loadIndexTemplate c templateName body
          match res.1 with
          | Except.error e =>
            (Except.error (GoErr.err ("could not load template. Elasticsearch returned: " ++ e
              ++ ". Template is: " ++ env.printDoc body)), ex.2 ++ res.2)
          | Except.ok _ => (Except.ok (), ex.2 ++ res.2)

/-! ## File loader (file_loader.go; its `buildBody` is part_000's, with the
Kind normalization switch) -/

/-- The `FileClient` collaborator: version and a write sink; a `some` result
is the write error. -/
structure FileClient where
  version : Version
  write : String → String → String → Option String

/-- Embeds `FileLoader.Load` (file_loader.go ll.47-67); also returns the
`(component, name, content)` writes performed. -/
def FileLoader.Load (env : Env) (c : FileClient) (config : TemplateConfig) (info : BeatInfo)
    (fields : Option Bytes) (migration : Bool) (g : Globals) :
    Except GoErr Unit × List (String × String × String) :=
  match templateBuilder.template env config info c.version migration with
  | Except.error e => (Except.error (GoErr.err e), [])
  | Except.ok none => (Except.ok (), [])
  | Except.ok (some tmpl) =>
    match templateBuilder.buildBody env (some tmpl) config fields g with
    | Except.error e => (Except.error e, [])
    | Except.ok body =>
      let content := env.printDoc body ++ "\n"
      match c.write "template" tmpl.name content with
      | some e =>
        (Except.error (GoErr.err ("error printing template: " ++ e)),
         [("template", tmpl.name, content)])
      | none => (Except.ok (), [("template", tmpl.name, content)])

/-! ## Observation points and concrete fixtures used by the claim theorems -/

/-- Extracts the `dynamic_templates` list from a generated document, unwrapping
the version-dependent mapping root of `buildMappings` (the observation point of
the determinism/ordering claim). -/
def dynamicTemplatesOf (ver : Version) (doc : Doc) : Option (List Value) :=
  match Doc.get doc mappingsKey with
  | some (Value.obj m) =>
    let inner : Option Doc :=
      if ver.major < 6 then
        match Doc.get m "_default_" with
        | some (Value.obj i) => some i
        | _ => none
      else if ver.major = 6 then
        match Doc.get m "doc" with
        | some (Value.obj i) => some i
        | _ => none
      else some m
    match inner with
    | some i =>
      match Doc.get i "dynamic_templates" with
      | some (Value.list l) => some l
      | _ => none
    | none => none
  | _ => none

/-- The legacy existence check exactly as claim C3 words it (a read against
`/_template/{name}`, exists iff status 200 and the body contains the name);
kept for comparison against `ESLoader.legacyTemplateExists`. -/
def claimC3LegacyExists (c : ESClient) (templateName : String) : Bool :=
  let resp := c.respond
    { method := "GET", path := "/_template/" ++ templateName, pipeline := ""
    , params := [], body := none }
  (resp.status == 200) && strContains resp.body templateName

/-- A body carrying a `data_stream` key (counterexample input for C1). -/
def c1doc : Doc := [("data_stream", Value.obj [("timestamp_field", Value.str "@timestamp")])]

/-- A client that answers 200 with a matching body on `/_template/tpl` and 404
elsewhere (counterexample client for C3). -/
def c3client : ESClient :=
  { respond := fun r =>
      if r.path = "/_template/tpl" then { status := 200, body := "tpl found", fail := none }
      else { status := 404, body := "", fail := none }
  , version := ⟨7, 0, 0⟩ }

/-- A version-6.7.2 cluster client (counterexample client for C5). -/
def c5client : ESClient :=
  { respond := fun _ => { status := 200, body := "", fail := none }, version := ⟨6, 7, 2⟩ }

/-- A benign environment: identity rendering, version 7.0.0, trivial field
walk. -/
def envOk : Env :=
  { render := fun s => Except.ok s
  , parseVersion := fun _ => Except.ok ⟨7, 0, 0⟩
  , readJSONFile := fun _ => Except.ok []
  , loadFieldsFile := fun _ => Except.error "no such file"
  , loadYamlBytes := fun _ => Except.error "unparseable"
  , concatFields := fun a _ => Except.ok a
  , process := fun _ g => Except.ok ([], g)
  , printDoc := fun _ => "" }

/-- Empty accumulators. -/
def g0 : Globals := { dynamicTemplates := [], defaultFields := [] }

/-- A beat named `beat` at version 7.0.0. -/
def info0 : BeatInfo := { version := "7.0.0", indexPrefix := "beat" }

/-- The template `New` produces from `envOk`/`DefaultConfig`/`info0`. -/
def tpl0 : Template :=
  { name := "beat-7.0.0", pattern := "beat-7.0.0-*", beatVersion := ⟨7, 0, 0⟩
  , beatName := "beat", esVersion := ⟨7, 0, 0⟩, config := DefaultConfig
  , migration := false, order := 1, priority := 150 }

/-- A client that always answers 200 with the default template name in the
body. -/
def esClient200 : ESClient :=
  { respond := fun _ => { status := 200, body := "beat-7.0.0", fail := none }
  , version := ⟨7, 0, 0⟩ }

/-- A client that always answers 404. -/
def esClient404 : ESClient :=
  { respond := fun _ => { status := 404, body := "", fail := none }, version := ⟨7, 0, 0⟩ }

/-- The default configuration with template generation disabled (C6's input). -/
def c6cfg : TemplateConfig := { DefaultConfig with enabled := false }

/-- A file client that accepts every write. -/
def fileClient0 : FileClient := { version := ⟨7, 0, 0⟩, write := fun _ _ _ => none }

/-- The document `Template.load` produces from `envOk`/`tpl0` (C7's witness
output). -/
def c7out : Doc :=
  match (Template.load envOk tpl0 [] g0).1 with
  | Except.ok d => d
  | Except.error _ => []

/-- A body carrying `order` and `settings` (C2's witness input). -/
def c2body : Doc := [("order", Value.int 1), ("settings", Value.str "sv")]

/-- The default configuration with the JSON override enabled under the name
`ovr` (C10's input). -/
def c10cfg : TemplateConfig :=
  { DefaultConfig with json := { enabled := true, path := "tpl.json", name := "ovr" } }

/-- The template `New` produces from `envOk`/`c10cfg`/`info0`. -/
def c10tmpl : Template :=
  { name := "beat-7.0.0", pattern := "beat-7.0.0-*", beatVersion := ⟨7, 0, 0⟩
  , beatName := "beat", esVersion := ⟨7, 0, 0⟩, config := c10cfg
  , migration := false, order := 1, priority := 150 }
/-! ## Lemmas about the document operations -/

theorem Doc.get_erase_self (d : Doc) (k : String) : Doc.get (Doc.erase d k) k = none := by
  induction d with
  | nil => rfl
  | cons p rest ih =>
    obtain ⟨k0, v⟩ := p
    rw [Doc.erase]
    by_cases h : k0 = k
    · rw [if_pos h]; exact ih
    · rw [if_neg h, Doc.get, if_neg h]; exact ih

theorem Doc.get_erase_ne (d : Doc) (k' k : String) (h : k' ≠ k) :
    Doc.get (Doc.erase d k') k = Doc.get d k := by
  induction d with
  | nil => rfl
  | cons p rest ih =>
    obtain ⟨k0, v⟩ := p
    rw [Doc.erase]
    by_cases h0 : k0 = k'
    · have hk : k0 ≠ k := by rw [h0]; exact h
      rw [if_pos h0, Doc.get, if_neg hk]
      exact ih
    · rw [if_neg h0, Doc.get, Doc.get]
      by_cases h1 : k0 = k
      · rw [if_pos h1, if_pos h1]
      · rw [if_neg h1, if_neg h1]; exact ih

theorem Doc.get_insert_self (d : Doc) (k : String) (v : Value) :
    Doc.get (Doc.insert d k v) k = some v := by
  induction d with
  | nil => rw [Doc.insert, Doc.get, if_pos rfl]
  | cons p rest ih =>
    obtain ⟨k0, w⟩ := p
    rw [Doc.insert]
    by_cases h0 : k0 = k
    · rw [if_pos h0, Doc.get, if_pos rfl]
    · rw [if_neg h0, Doc.get, if_neg h0]; exact ih

theorem Doc.get_insert_ne (d : Doc) (k' k : String) (v : Value) (h : k' ≠ k) :
    Doc.get (Doc.insert d k' v) k = Doc.get d k := by
  induction d with
  | nil => simp only [Doc.insert, Doc.get, if_neg h]
  | cons p rest ih =>
    obtain ⟨k0, w⟩ := p
    rw [Doc.insert]
    by_cases h0 : k0 = k'
    · have hk : k0 ≠ k := by rw [h0]; exact h
      rw [if_pos h0]
      show Doc.get ((k', v) :: rest) k = Doc.get ((k0, w) :: rest) k
      rw [Doc.get, if_neg h, Doc.get, if_neg hk]
    · rw [if_neg h0]
      show Doc.get ((k0, w) :: Doc.insert rest k' v) k = Doc.get ((k0, w) :: rest) k
      rw [Doc.get, Doc.get]
      by_cases h1 : k0 = k
      · rw [if_pos h1, if_pos h1]
      · rw [if_neg h1, if_neg h1]; exact ih

theorem Doc.get_deepUpdateKey_ne (d : Doc) (k0 k : String) (v : Value) (h : k0 ≠ k) :
    Doc.get (Doc.deepUpdateKey d k0 v) k = Doc.get d k := by
  cases v <;> simp only [Doc.deepUpdateKey]
  case obj uo =>
    split <;> exact Doc.get_insert_ne _ _ _ _ h
  all_goals exact Doc.get_insert_ne _ _ _ _ h

theorem Doc.get_deepUpdate_of_not_mem (d u : Doc) (k : String) (h : Doc.get u k = none) :
    Doc.get (Doc.deepUpdate d u) k = Doc.get d k := by
  induction u generalizing d with
  | nil => rw [Doc.deepUpdate]
  | cons p rest ih =>
    obtain ⟨k0, v⟩ := p
    have hk0 : k0 ≠ k := by
      intro e
      rw [Doc.get, if_pos e] at h
      exact Option.some_ne_none _ h
    have hrest : Doc.get rest k = none := by
      rw [Doc.get, if_neg hk0] at h; exact h
    rw [Doc.deepUpdate, ih _ hrest, Doc.get_deepUpdateKey_ne _ _ _ _ hk0]


theorem moveStep_fst_self (acc : Doc × Option Doc) (key : String) :
    Doc.get (moveStep acc key).1 key = none := by
  simp only [moveStep]
  split
  · exact Doc.get_erase_self _ _
  · assumption

theorem moveStep_fst_ne (acc : Doc × Option Doc) (key k : String) (h : key ≠ k) :
    Doc.get (moveStep acc key).1 k = Doc.get acc.1 k := by
  simp only [moveStep]
  split
  · exact Doc.get_erase_ne _ _ _ h
  · rfl

theorem moveStep_snd_found (acc : Doc × Option Doc) (key : String)
    (h : Doc.get acc.1 key ≠ none) :
    ∃ ti, (moveStep acc key).2 = some ti ∧ Doc.get ti key = Doc.get acc.1 key := by
  simp only [moveStep]
  split
  · next v' heq =>
    refine ⟨_, rfl, ?_⟩
    rw [Doc.get_insert_self, heq]
  · next heq => exact absurd heq h

theorem moveStep_snd_pres (acc : Doc × Option Doc) (key k : String) (h : key ≠ k)
    (ti : Doc) (hti : acc.2 = some ti) :
    ∃ ti', (moveStep acc key).2 = some ti' ∧ Doc.get ti' k = Doc.get ti k := by
  simp only [moveStep]
  split
  · refine ⟨_, rfl, ?_⟩
    rw [hti]
    exact Doc.get_insert_ne _ _ _ _ h
  · exact ⟨ti, hti, rfl⟩

theorem moveTemplate_get_moved (b : Doc) (k : String)
    (hk : k = settingsKey ∨ k = mappingsKey ∨ k = aliasesKey) :
    Doc.get (moveTemplate b) k = none := by
  simp only [moveTemplate]
  split
  · next ti hti =>
    rcases hk with rfl | rfl | rfl
    · rw [Doc.get_insert_ne _ _ _ _ (by decide),
        moveStep_fst_ne _ _ _ (by decide), moveStep_fst_ne _ _ _ (by decide)]
      exact moveStep_fst_self _ _
    · rw [Doc.get_insert_ne _ _ _ _ (by decide), moveStep_fst_ne _ _ _ (by decide)]
      exact moveStep_fst_self _ _
    · rw [Doc.get_insert_ne _ _ _ _ (by decide)]
      exact moveStep_fst_self _ _
  · rcases hk with rfl | rfl | rfl
    · rw [moveStep_fst_ne _ _ _ (by decide), moveStep_fst_ne _ _ _ (by decide)]
      exact moveStep_fst_self _ _
    · rw [moveStep_fst_ne _ _ _ (by decide)]
      exact moveStep_fst_self _ _
    · exact moveStep_fst_self _ _

theorem moveTemplate_get_other (b : Doc) (k : String) (h1 : k ≠ settingsKey)
    (h2 : k ≠ mappingsKey) (h3 : k ≠ aliasesKey) (h4 : k ≠ "template") :
    Doc.get (moveTemplate b) k = Doc.get b k := by
  simp only [moveTemplate]
  split
  · rw [Doc.get_insert_ne _ _ _ _ (Ne.symm h4),
      moveStep_fst_ne _ _ _ (Ne.symm h3), moveStep_fst_ne _ _ _ (Ne.symm h2),
      moveStep_fst_ne _ _ _ (Ne.symm h1)]
  · rw [moveStep_fst_ne _ _ _ (Ne.symm h3), moveStep_fst_ne _ _ _ (Ne.symm h2),
      moveStep_fst_ne _ _ _ (Ne.symm h1)]

theorem moveTemplate_nested (b : Doc) (k : String)
    (hk : k = settingsKey ∨ k = mappingsKey ∨ k = aliasesKey)
    (hb : Doc.get b k ≠ none) :
    ∃ ti, Doc.get (moveTemplate b) "template" = some (Value.obj ti) ∧
      Doc.get ti k = Doc.get b k := by
  have step :
      ∃ ti, (moveStep (moveStep (moveStep (b, none) settingsKey) mappingsKey) aliasesKey).2
          = some ti ∧ Doc.get ti k = Doc.get b k := by
    rcases hk with rfl | rfl | rfl
    · obtain ⟨t1, ht1, hg1⟩ := moveStep_snd_found (b, none) settingsKey hb
      obtain ⟨t2, ht2, hg2⟩ := moveStep_snd_pres _ mappingsKey settingsKey (by decide) t1 ht1
      obtain ⟨t3, ht3, hg3⟩ := moveStep_snd_pres _ aliasesKey settingsKey (by decide) t2 ht2
      exact ⟨t3, ht3, by rw [hg3, hg2, hg1]⟩
    · have hb1 : Doc.get (moveStep (b, none) settingsKey).1 mappingsKey = Doc.get b mappingsKey :=
        moveStep_fst_ne _ _ _ (by decide)
      obtain ⟨t2, ht2, hg2⟩ := moveStep_snd_found (moveStep (b, none) settingsKey) mappingsKey
        (by rw [hb1]; exact hb)
      obtain ⟨t3, ht3, hg3⟩ := moveStep_snd_pres _ aliasesKey mappingsKey (by decide) t2 ht2
      exact ⟨t3, ht3, by rw [hg3, hg2, hb1]⟩
    · have hb1 : Doc.get (moveStep (moveStep (b, none) settingsKey) mappingsKey).1 aliasesKey
          = Doc.get b aliasesKey := by
        rw [moveStep_fst_ne _ _ _ (by decide), moveStep_fst_ne _ _ _ (by decide)]
      obtain ⟨t3, ht3, hg3⟩ := moveStep_snd_found
        (moveStep (moveStep (b, none) settingsKey) mappingsKey) aliasesKey
        (by rw [hb1]; exact hb)
      exact ⟨t3, ht3, by rw [hg3, hb1]⟩
  obtain ⟨ti, hti, hgi⟩ := step
  refine ⟨ti, ?_, hgi⟩
  simp only [moveTemplate]
  rw [hti]
  exact Doc.get_insert_self _ _ _

theorem moveStepES_fst_self (acc : Doc × Doc) (key : String) :
    Doc.get (moveStepES acc key).1 key = none := by
  simp only [moveStepES]
  split
  · exact Doc.get_erase_self _ _
  · assumption

theorem moveStepES_fst_ne (acc : Doc × Doc) (key k : String) (h : key ≠ k) :
    Doc.get (moveStepES acc key).1 k = Doc.get acc.1 k := by
  simp only [moveStepES]
  split
  · exact Doc.get_erase_ne _ _ _ h
  · rfl

theorem moveStepES_snd_found (acc : Doc × Doc) (key : String)
    (h : Doc.get acc.1 key ≠ none) :
    Doc.get (moveStepES acc key).2 key = Doc.get acc.1 key := by
  simp only [moveStepES]
  split
  · next v' heq => rw [Doc.get_insert_self, heq]
  · next heq => exact absurd heq h

theorem moveStepES_snd_pres (acc : Doc × Doc) (key k : String) (h : key ≠ k) :
    Doc.get (moveStepES acc key).2 k = Doc.get acc.2 k := by
  simp only [moveStepES]
  split
  · exact Doc.get_insert_ne _ _ _ _ h
  · rfl

theorem loadIndexTemplateBody_get_moved (b : Doc) (k : String)
    (hk : k = settingsKey ∨ k = mappingsKey ∨ k = aliasesKey) :
    Doc.get (ESLoader.loadIndexTemplateBody b) k = none := by
  simp only [ESLoader.loadIndexTemplateBody]
  rcases hk with rfl | rfl | rfl
  · rw [Doc.get_insert_ne _ _ _ _ (by decide),
      moveStepES_fst_ne _ _ _ (by decide), moveStepES_fst_ne _ _ _ (by decide)]
    exact moveStepES_fst_self _ _
  · rw [Doc.get_insert_ne _ _ _ _ (by decide), moveStepES_fst_ne _ _ _ (by decide)]
    exact moveStepES_fst_self _ _
  · rw [Doc.get_insert_ne _ _ _ _ (by decide)]
    exact moveStepES_fst_self _ _

theorem loadIndexTemplateBody_get_order (b : Doc) :
    Doc.get (ESLoader.loadIndexTemplateBody b) orderKey = none := by
  simp only [ESLoader.loadIndexTemplateBody]
  rw [Doc.get_insert_ne _ _ _ _ (by decide), moveStepES_fst_ne _ _ _ (by decide),
    moveStepES_fst_ne _ _ _ (by decide), moveStepES_fst_ne _ _ _ (by decide)]
  exact Doc.get_erase_self _ _

theorem loadIndexTemplateBody_nested (b : Doc) (k : String)
    (hk : k = settingsKey ∨ k = mappingsKey ∨ k = aliasesKey)
    (hb : Doc.get b k ≠ none) :
    ∃ ti, Doc.get (ESLoader.loadIndexTemplateBody b) "template" = some (Value.obj ti) ∧
      Doc.get ti k = Doc.get b k := by
  simp only [ESLoader.loadIndexTemplateBody]
  refine ⟨_, Doc.get_insert_self _ _ _, ?_⟩
  rcases hk with rfl | rfl | rfl <;>
    simp only [settingsKey, mappingsKey, aliasesKey] at hb ⊢
  · have h0 : Doc.get (Doc.erase b "order") "settings" = Doc.get b "settings" :=
      Doc.get_erase_ne _ _ _ (by decide)
    have hb0 : Doc.get (Doc.erase b "order") "settings" ≠ none := by rw [h0]; exact hb
    rw [moveStepES_snd_pres
        (moveStepES (moveStepES (Doc.erase b "order", []) "settings") "mappings") "aliases"
        "settings" (by decide),
      moveStepES_snd_pres (moveStepES (Doc.erase b "order", []) "settings") "mappings"
        "settings" (by decide),
      moveStepES_snd_found (Doc.erase b "order", []) "settings" hb0]
    exact h0
  · have h0 : Doc.get (Doc.erase b "order") "mappings" = Doc.get b "mappings" :=
      Doc.get_erase_ne _ _ _ (by decide)
    have h1 : Doc.get (moveStepES (Doc.erase b "order", []) "settings").1 "mappings"
        = Doc.get b "mappings" := by
      rw [moveStepES_fst_ne (Doc.erase b "order", []) "settings" "mappings" (by decide)]
      exact h0
    have hb1 : Doc.get (moveStepES (Doc.erase b "order", []) "settings").1 "mappings" ≠ none := by
      rw [h1]; exact hb
    rw [moveStepES_snd_pres
        (moveStepES (moveStepES (Doc.erase b "order", []) "settings") "mappings") "aliases"
        "mappings" (by decide),
      moveStepES_snd_found (moveStepES (Doc.erase b "order", []) "settings") "mappings" hb1]
    exact h1
  · have h0 : Doc.get (Doc.erase b "order") "aliases" = Doc.get b "aliases" :=
      Doc.get_erase_ne _ _ _ (by decide)
    have h2 : Doc.get (moveStepES (moveStepES (Doc.erase b "order", []) "settings") "mappings").1
        "aliases" = Doc.get b "aliases" := by
      rw [moveStepES_fst_ne (moveStepES (Doc.erase b "order", []) "settings") "mappings"
          "aliases" (by decide),
        moveStepES_fst_ne (Doc.erase b "order", []) "settings" "aliases" (by decide)]
      exact h0
    have hb2 : Doc.get (moveStepES (moveStepES (Doc.erase b "order", []) "settings") "mappings").1
        "aliases" ≠ none := by
      rw [h2]; exact hb
    rw [moveStepES_snd_found
        (moveStepES (moveStepES (Doc.erase b "order", []) "settings") "mappings") "aliases" hb2]
    exact h2

/-! ## Claim theorems -/

/-- C1 (counterexample): the claim also covers the legacy install path
(`ESLoader.loadLegacyTemplate`), but that path deletes only `priority`; a body
carrying `data_stream` keeps it in the final written document, so the claim
"contains none of the keys priority, composed_of, data_stream" is false there. -/
theorem C1_counterexample :
    Doc.get (ESLoader.loadLegacyTemplateBody c1doc) "data_stream" ≠ none := by
  have h : Doc.get (ESLoader.loadLegacyTemplateBody c1doc) "data_stream"
      = some (Value.obj [("timestamp_field", Value.str "@timestamp")]) := rfl
  rw [h]
  exact Option.some_ne_none _

/-- C1 (amended): for every input body, the Kind=Legacy `buildBody`
normalization removes `priority`, `composed_of` and `data_stream` and leaves
`settings`/`mappings` top-level; the legacy install path removes only
`priority` (leaving `settings`/`mappings` top-level) and preserves any
`composed_of`/`data_stream` keys unchanged. -/
theorem C1_legacy_shape (body : Doc) :
    Doc.get (templateBuilder.normalizeKind Kind.legacy body) priorityKey = none ∧
    Doc.get (templateBuilder.normalizeKind Kind.legacy body) composedOfKey = none ∧
    Doc.get (templateBuilder.normalizeKind Kind.legacy body) dataStreamKey = none ∧
    Doc.get (templateBuilder.normalizeKind Kind.legacy body) settingsKey
      = Doc.get body settingsKey ∧
    Doc.get (templateBuilder.normalizeKind Kind.legacy body) mappingsKey
      = Doc.get body mappingsKey ∧
    Doc.get (ESLoader.loadLegacyTemplateBody body) "priority" = none ∧
    Doc.get (ESLoader.loadLegacyTemplateBody body) "settings" = Doc.get body "settings" ∧
    Doc.get (ESLoader.loadLegacyTemplateBody body) "mappings" = Doc.get body "mappings" ∧
    Doc.get (ESLoader.loadLegacyTemplateBody body) "composed_of" = Doc.get body "composed_of" ∧
    Doc.get (ESLoader.loadLegacyTemplateBody body) "data_stream" = Doc.get body "data_stream" := by
  refine ⟨?_, ?_, ?_, ?_, ?_, ?_, ?_, ?_, ?_, ?_⟩ <;>
    simp only [templateBuilder.normalizeKind, ESLoader.loadLegacyTemplateBody,
      priorityKey, composedOfKey, dataStreamKey, settingsKey, mappingsKey]
  · rw [Doc.get_erase_ne _ _ _ (by decide), Doc.get_erase_ne _ _ _ (by decide)]
    exact Doc.get_erase_self _ _
  · rw [Doc.get_erase_ne _ _ _ (by decide)]
    exact Doc.get_erase_self _ _
  · exact Doc.get_erase_self _ _
  · rw [Doc.get_erase_ne _ _ _ (by decide), Doc.get_erase_ne _ _ _ (by decide),
      Doc.get_erase_ne _ _ _ (by decide)]
  · rw [Doc.get_erase_ne _ _ _ (by decide), Doc.get_erase_ne _ _ _ (by decide),
      Doc.get_erase_ne _ _ _ (by decide)]
  · exact Doc.get_erase_self _ _
  · exact Doc.get_erase_ne _ _ _ (by decide)
  · exact Doc.get_erase_ne _ _ _ (by decide)
  · exact Doc.get_erase_ne _ _ _ (by decide)
  · exact Doc.get_erase_ne _ _ _ (by decide)

/-- C3 (counterexample): the code's legacy existence check reads
`/_cat/templates/{name}`, not `/_template/{name}`: against a cluster that
answers 200/"tpl found" on `/_template/tpl` but 404 on `/_cat/templates/tpl`,
the check as the claim words it says "exists" while the code says "does not
exist". -/
theorem C3_counterexample :
    claimC3LegacyExists c3client "tpl" = true ∧
    (ESLoader.legacyTemplateExists ⟨some c3client⟩ "tpl").1 = false :=
  ⟨rfl, rfl⟩

/-- C3 (amended): the legacy existence check issues exactly one GET to
`/_cat/templates/{name}` and reports exists iff the status is 200 and the body
contains the name; the index existence check issues exactly one GET to
`/_index_template/{name}` and reports exists iff the status is 200, with no
body check. -/
theorem C3_exists_checks (c : ESClient) (templateName : String) :
    (ESLoader.legacyTemplateExists ⟨some c⟩ templateName).2 =
      [{ method := "GET", path := "/_cat/templates/" ++ templateName, pipeline := ""
       , params := [], body := none }] ∧
    (ESLoader.legacyTemplateExists ⟨some c⟩ templateName).1 =
      (((c.respond { method := "GET", path := "/_cat/templates/" ++ templateName, pipeline := ""
                   , params := [], body := none }).status == 200)
        && strContains (c.respond { method := "GET", path := "/_cat/templates/" ++ templateName
                                  , pipeline := "", params := [], body := none }).body
             templateName) ∧
    (ESLoader.indexTemplateExists ⟨some c⟩ templateName).2 =
      [{ method := "GET", path := "/_index_template/" ++ templateName, pipeline := ""
       , params := [], body := none }] ∧
    (ESLoader.indexTemplateExists ⟨some c⟩ templateName).1 =
      ((c.respond { method := "GET", path := "/_index_template/" ++ templateName, pipeline := ""
                  , params := [], body := none }).status == 200) :=
  ⟨rfl, rfl, rfl, rfl⟩

/-- C5 (counterexample): at cluster version 6.7.2 the index-kind install
request carries no query parameters at all — `loadIndexTemplate` passes nil
params — so `include_type_name=true` is not attached to every install request
at 6.7. -/
theorem C5_counterexample :
    c5client.version.major = 6 ∧ c5client.version.minor = 7 ∧
    (ESLoader.loadIndexTemplate c5client "tname" []).2 =
      [{ method := "PUT", path := "/_index_template/tname", pipeline := ""
       , params := [], body := some [("template", Value.obj [])] }] :=
  ⟨rfl, rfl, rfl⟩

/-- C5 (amended): the legacy install request carries `include_type_name=true`
iff the cluster version has major 6 and minor 7 (and otherwise no parameter);
the index install request never carries any query parameter. -/
theorem C5_version_params (c : ESClient) (templateName : String) (template : Doc) :
    (ESLoader.loadLegacyTemplate c templateName template).2.map ESRequest.params =
      [if c.version.major = 6 ∧ c.version.minor = 7 then [("include_type_name", "true")] else []] ∧
    (ESLoader.loadIndexTemplate c templateName template).2.map ESRequest.params = [[]] :=
  ⟨rfl, rfl⟩

theorem Doc.putPath_single (d : Doc) (k : String) (v : Value) :
    Doc.putPath d [k] v = Doc.insert d k v := rfl

theorem Doc.putPath_cons_of_none (d : Doc) (k k2 : String) (ks : List String) (v : Value)
    (h : Doc.get d k = none) :
    Doc.putPath d (k :: k2 :: ks) v
      = Doc.insert d k (Value.obj (Doc.putPath [] (k2 :: ks) v)) := by
  simp only [Doc.putPath, h]

theorem get_source_ite (d src : Doc) (k : String) (hk : ("_source" : String) ≠ k) :
    Doc.get (if 0 < src.length then Doc.insert d "_source" (Value.obj src) else d) k
      = Doc.get d k := by
  by_cases hs : 0 < src.length
  · rw [if_pos hs, Doc.get_insert_ne _ _ _ _ hk]
  · rw [if_neg hs]

theorem get_all_after_norms (d : Doc) (h : Doc.get d "_all" = none) :
    Doc.get (Doc.putPath d ["_all", "norms", "enabled"] (Value.bool false)) "_all"
      = some (Value.obj [("norms", Value.obj [("enabled", Value.bool false)])]) := by
  rw [Doc.putPath_cons_of_none _ _ _ _ _ h, Doc.get_insert_self]
  rfl

/-- C9: the compiled index settings contain `number_of_routing_shards` iff the
cluster version is at least 6.1.0 (not lexicographically below it) and its
major is below 7 — provided the user's own index settings do not themselves
carry that key (`DeepUpdate` would merge them in verbatim). -/
theorem C9_routing_shards (ver : Version) (userSettings : Doc) (defaultFields : List String)
    (h : Doc.get userSettings "number_of_routing_shards" = none) :
    Doc.get (buildIdxSettings ver userSettings defaultFields) "number_of_routing_shards" ≠ none
      ↔ (ver.lessThan ⟨6, 1, 0⟩ = false ∧ ver.major < 7) := by
  simp only [buildIdxSettings]
  rw [Doc.get_deepUpdate_of_not_mem _ _ _ h]
  by_cases h1 : ver.lessThan ⟨6, 1, 0⟩ = false ∧ ver.major < 7
  · obtain ⟨h1a, h1b⟩ := h1
    rw [if_pos (⟨h1a, h1b⟩ : _ ∧ _), if_neg (by omega : ¬ 7 ≤ ver.major),
      Doc.putPath_single, Doc.get_insert_self]
    exact iff_of_true (Option.some_ne_none _) ⟨h1a, h1b⟩
  · rw [if_neg h1]
    by_cases h2 : 7 ≤ ver.major
    · rw [if_pos h2,
        Doc.putPath_cons_of_none _ _ _ _ _ (by rfl), Doc.get_insert_ne _ _ _ _ (by decide)]
      exact iff_of_false (fun hc => hc rfl) h1
    · rw [if_neg h2]
      exact iff_of_false (fun hc => hc rfl) h1

/-- C9 witness: 6.1.0 emits the routing-shards setting, 6.0.9 and 7.0.0 omit
it (empty user settings). -/
theorem C9_witness :
    Doc.get (buildIdxSettings ⟨6, 1, 0⟩ [] []) "number_of_routing_shards" ≠ none ∧
    Doc.get (buildIdxSettings ⟨6, 0, 9⟩ [] []) "number_of_routing_shards" = none ∧
    Doc.get (buildIdxSettings ⟨7, 0, 0⟩ [] []) "number_of_routing_shards" = none := by
  refine ⟨?_, ?_, ?_⟩
  · exact (C9_routing_shards ⟨6, 1, 0⟩ [] [] rfl).mpr (by decide)
  · by_contra hc
    exact absurd ((C9_routing_shards ⟨6, 0, 9⟩ [] [] rfl).mp hc) (by decide)
  · by_contra hc
    exact absurd ((C9_routing_shards ⟨7, 0, 0⟩ [] [] rfl).mp hc) (by decide)

/-- C8: the compiled mappings document's root shape is determined by the major
version: major=2 yields a `_default_` root carrying `_all.norms.enabled=false`;
any other major<6 yields a `_default_` root (without `_all`); major=6 yields a
`doc` root; major≥7 is typeless (no `_default_`/`doc` root, `properties` stays
at top level). -/
theorem C8_mapping_root (beatVersion esVersion : Version) (beatName : String)
    (properties : Doc) (dynTmpls : List Doc) (source : Doc) :
    (esVersion.major = 2 →
      ∃ inner, buildMappings beatVersion esVersion beatName properties dynTmpls source
          = [("_default_", Value.obj inner)] ∧
        Doc.get inner "_all"
          = some (Value.obj [("norms", Value.obj [("enabled", Value.bool false)])])) ∧
    (esVersion.major < 6 → esVersion.major ≠ 2 →
      ∃ inner, buildMappings beatVersion esVersion beatName properties dynTmpls source
          = [("_default_", Value.obj inner)] ∧ Doc.get inner "_all" = none) ∧
    (esVersion.major = 6 →
      ∃ inner, buildMappings beatVersion esVersion beatName properties dynTmpls source
          = [("doc", Value.obj inner)]) ∧
    (7 ≤ esVersion.major →
      Doc.get (buildMappings beatVersion esVersion beatName properties dynTmpls source)
          "_default_" = none ∧
      Doc.get (buildMappings beatVersion esVersion beatName properties dynTmpls source)
          "doc" = none ∧
      Doc.get (buildMappings beatVersion esVersion beatName properties dynTmpls source)
          "properties" = some (Value.obj properties)) := by
  refine ⟨?_, ?_, ?_, ?_⟩
  · intro h2
    simp only [buildMappings]
    rw [if_pos h2]
    refine ⟨_, rfl, ?_⟩
    exact get_all_after_norms _ (by rw [get_source_ite _ _ _ (by decide)]; rfl)
  · intro h6 h2
    simp only [buildMappings]
    rw [if_neg h2, if_pos h6]
    refine ⟨_, rfl, ?_⟩
    rw [get_source_ite _ _ _ (by decide)]
    rfl
  · intro h6
    simp only [buildMappings]
    rw [if_neg (by omega : ¬ esVersion.major = 2), if_neg (by omega : ¬ esVersion.major < 6),
      if_pos h6]
    exact ⟨_, rfl⟩
  · intro h7
    simp only [buildMappings]
    rw [if_neg (by omega : ¬ esVersion.major = 2), if_neg (by omega : ¬ esVersion.major < 6),
      if_neg (by omega : ¬ esVersion.major = 6)]
    refine ⟨?_, ?_, ?_⟩
    · rw [get_source_ite _ _ _ (by decide)]
      rfl
    · rw [get_source_ite _ _ _ (by decide)]
      rfl
    · rw [get_source_ite _ _ _ (by decide)]
      rfl

/-- C8 witness: the four root shapes at versions 2.4.0, 5.6.0, 6.8.0 and
7.0.0. -/
theorem C8_witness :
    (∃ inner, buildMappings ⟨6, 8, 0⟩ ⟨2, 4, 0⟩ "b" [] [] [] = [("_default_", Value.obj inner)] ∧
      Doc.get inner "_all"
        = some (Value.obj [("norms", Value.obj [("enabled", Value.bool false)])])) ∧
    (∃ inner, buildMappings ⟨6, 8, 0⟩ ⟨5, 6, 0⟩ "b" [] [] [] = [("_default_", Value.obj inner)] ∧
      Doc.get inner "_all" = none) ∧
    (∃ inner, buildMappings ⟨6, 8, 0⟩ ⟨6, 8, 0⟩ "b" [] [] [] = [("doc", Value.obj inner)]) ∧
    (Doc.get (buildMappings ⟨6, 8, 0⟩ ⟨7, 0, 0⟩ "b" [] [] []) "_default_" = none ∧
     Doc.get (buildMappings ⟨6, 8, 0⟩ ⟨7, 0, 0⟩ "b" [] [] []) "doc" = none ∧
     Doc.get (buildMappings ⟨6, 8, 0⟩ ⟨7, 0, 0⟩ "b" [] [] []) "properties"
       = some (Value.obj [])) :=
  ⟨(C8_mapping_root ⟨6, 8, 0⟩ ⟨2, 4, 0⟩ "b" [] [] []).1 rfl,
   (C8_mapping_root ⟨6, 8, 0⟩ ⟨5, 6, 0⟩ "b" [] [] []).2.1 (by decide) (by decide),
   (C8_mapping_root ⟨6, 8, 0⟩ ⟨6, 8, 0⟩ "b" [] [] []).2.2.1 rfl,
   (C8_mapping_root ⟨6, 8, 0⟩ ⟨7, 0, 0⟩ "b" [] [] []).2.2.2 (by decide)⟩

/-- C2: for every input body, both the Kind=Index and Kind=Component
`buildBody` normalizations and the index install path produce a document with
no `order` key in which each of `settings`/`mappings`/`aliases` that was
present in the body is gone from the top level and appears under the single
`template` key. -/
theorem C2_index_component_shape (body : Doc) (k : String)
    (hk : k = settingsKey ∨ k = mappingsKey ∨ k = aliasesKey) :
    Doc.get (templateBuilder.normalizeKind Kind.index body) orderKey = none ∧
    Doc.get (templateBuilder.normalizeKind Kind.component body) orderKey = none ∧
    Doc.get (ESLoader.loadIndexTemplateBody body) orderKey = none ∧
    Doc.get (templateBuilder.normalizeKind Kind.index body) k = none ∧
    Doc.get (templateBuilder.normalizeKind Kind.component body) k = none ∧
    Doc.get (ESLoader.loadIndexTemplateBody body) k = none ∧
    (∀ v, Doc.get body k = some v →
      (∃ ti, Doc.get (templateBuilder.normalizeKind Kind.index body) "template"
          = some (Value.obj ti) ∧ Doc.get ti k = some v) ∧
      (∃ ti, Doc.get (templateBuilder.normalizeKind Kind.component body) "template"
          = some (Value.obj ti) ∧ Doc.get ti k = some v) ∧
      (∃ ti, Doc.get (ESLoader.loadIndexTemplateBody body) "template"
          = some (Value.obj ti) ∧ Doc.get ti k = some v)) := by
  simp only [templateBuilder.normalizeKind]
  refine ⟨?_, ?_, loadIndexTemplateBody_get_order body, ?_, ?_,
    loadIndexTemplateBody_get_moved body k hk, ?_⟩
  · rw [moveTemplate_get_other _ _ (by decide) (by decide) (by decide) (by decide)]
    exact Doc.get_erase_self _ _
  · rw [Doc.get_erase_ne _ _ _ (by decide), Doc.get_erase_ne _ _ _ (by decide),
      Doc.get_erase_ne _ _ _ (by decide),
      moveTemplate_get_other _ _ (by decide) (by decide) (by decide) (by decide),
      Doc.get_erase_ne _ _ _ (by decide)]
    exact Doc.get_erase_self _ _
  · exact moveTemplate_get_moved _ _ hk
  · have hmoved := moveTemplate_get_moved (Doc.erase (Doc.erase body orderKey) indexPatternsKey) k hk
    rcases hk with rfl | rfl | rfl <;>
      rw [Doc.get_erase_ne _ _ _ (by decide), Doc.get_erase_ne _ _ _ (by decide),
        Doc.get_erase_ne _ _ _ (by decide)] <;>
      exact hmoved
  · intro v hv
    have hvne : Doc.get body k ≠ none := by rw [hv]; exact Option.some_ne_none _
    refine ⟨?_, ?_, ?_⟩
    · have hpre : Doc.get (Doc.erase body orderKey) k = Doc.get body k := by
        rcases hk with rfl | rfl | rfl <;> exact Doc.get_erase_ne _ _ _ (by decide)
      obtain ⟨ti, hti, hgi⟩ := moveTemplate_nested (Doc.erase body orderKey) k hk
        (by rw [hpre]; exact hvne)
      exact ⟨ti, hti, by rw [hgi, hpre, hv]⟩
    · have hpre : Doc.get (Doc.erase (Doc.erase body orderKey) indexPatternsKey) k
          = Doc.get body k := by
        rcases hk with rfl | rfl | rfl <;>
          rw [Doc.get_erase_ne _ _ _ (by decide), Doc.get_erase_ne _ _ _ (by decide)]
      obtain ⟨ti, hti, hgi⟩ := moveTemplate_nested
        (Doc.erase (Doc.erase body orderKey) indexPatternsKey) k hk (by rw [hpre]; exact hvne)
      refine ⟨ti, ?_, by rw [hgi, hpre, hv]⟩
      rw [Doc.get_erase_ne _ _ _ (by decide), Doc.get_erase_ne _ _ _ (by decide),
        Doc.get_erase_ne _ _ _ (by decide)]
      exact hti
    · obtain ⟨ti, hti, hgi⟩ := loadIndexTemplateBody_nested body k hk hvne
      exact ⟨ti, hti, by rw [hgi, hv]⟩

/-- C2 witness: a body with `order` and `settings` keys, normalized for the
index kind. -/
theorem C2_witness :
    Doc.get (templateBuilder.normalizeKind Kind.index c2body) orderKey = none ∧
    (∃ ti, Doc.get (templateBuilder.normalizeKind Kind.index c2body) "template"
        = some (Value.obj ti) ∧ Doc.get ti settingsKey = some (Value.str "sv")) :=
  ⟨(C2_index_component_shape c2body settingsKey (Or.inl rfl)).1,
   ((C2_index_component_shape c2body settingsKey (Or.inl rfl)).2.2.2.2.2.2
     (Value.str "sv") rfl).1⟩

theorem generate_dynamicTemplatesOf (t : Template) (properties : Doc) (dts : List Doc)
    (dfs : List String) :
    dynamicTemplatesOf t.esVersion (t.Generate properties dts dfs) =
      some ((dts ++ [buildDynTmpl t.esVersion]).map Value.obj) := by
  have hm : Doc.get (t.Generate properties dts dfs) mappingsKey
      = some (Value.obj (buildMappings t.beatVersion t.esVersion t.beatName properties
          (dts ++ [buildDynTmpl t.esVersion]) ((t.config.settings.source).getD []))) := by
    simp only [Template.Generate]
    rw [Doc.get_insert_ne _ _ _ _ (by decide), Doc.get_insert_self]
  simp only [dynamicTemplatesOf, hm, buildMappings]
  by_cases hs : 0 < ((t.config.settings.source).getD ([] : Doc)).length
  all_goals
    first
      | rw [if_pos hs]
      | rw [if_neg hs]
  all_goals by_cases h2 : t.esVersion.major = 2
  · rw [if_pos h2, if_pos (by omega : t.esVersion.major < 6)]
    rfl
  · by_cases h6 : t.esVersion.major < 6
    · rw [if_neg h2, if_pos h6, if_pos h6]
      rfl
    · by_cases h66 : t.esVersion.major = 6
      · rw [if_neg h2, if_neg h6, if_pos h66, if_neg h6, if_pos h66]
        rfl
      · rw [if_neg h2, if_neg h6, if_neg h66, if_neg h6, if_neg h66]
        rfl
  · rw [if_pos h2, if_pos (by omega : t.esVersion.major < 6)]
    rfl
  · by_cases h6 : t.esVersion.major < 6
    · rw [if_neg h2, if_pos h6, if_pos h6]
      rfl
    · by_cases h66 : t.esVersion.major = 6
      · rw [if_neg h2, if_neg h6, if_pos h66, if_neg h6, if_pos h66]
        rfl
      · rw [if_neg h2, if_neg h6, if_neg h66, if_neg h6, if_neg h66]
        rfl

/-- C7: compiling the same field tree with the same config and version is
insensitive to the pre-existing accumulator state (`load` resets the two
package slices before processing), so repeated compiles agree; and every
successful compile carries the compiler's catch-all `strings_as_keyword` rule
as the last entry of the `dynamic_templates` list. -/
theorem C7_deterministic_catchall_last (env : Env) (t : Template) (fields : Fields)
    (g g' : Globals) :
    (Template.load env t fields g).1 = (Template.load env t fields g').1 ∧
    (∀ out, (Template.load env t fields g).1 = Except.ok out →
      ∃ l, dynamicTemplatesOf t.esVersion out = some l ∧
        l.getLast? = some (Value.obj (buildDynTmpl t.esVersion)) ∧
        (Doc.get (buildDynTmpl t.esVersion) "strings_as_keyword").isSome = true) := by
  refine ⟨rfl, ?_⟩
  intro out hout
  simp only [Template.load] at hout
  cases hcf : (if 0 < t.config.appendFields.length
      then env.concatFields fields t.config.appendFields else Except.ok fields) with
  | error e =>
    rw [hcf] at hout
    have hbad : (Except.error e : Except String Doc) = Except.ok out := hout
    exact Except.noConfusion hbad
  | ok fields2 =>
    rw [hcf] at hout
    have hout2 : (match env.process fields2 { dynamicTemplates := [], defaultFields := [] } with
        | Except.error e => ((Except.error e : Except String Doc),
            ({ dynamicTemplates := [], defaultFields := [] } : Globals))
        | Except.ok (properties, g2) =>
          (Except.ok (t.Generate properties g2.dynamicTemplates g2.defaultFields), g2)).1
        = Except.ok out := hout
    cases hpr : env.process fields2 { dynamicTemplates := [], defaultFields := [] } with
    | error e =>
      rw [hpr] at hout2
      have hbad : (Except.error e : Except String Doc) = Except.ok out := hout2
      exact Except.noConfusion hbad
    | ok pg =>
      obtain ⟨properties, g2⟩ := pg
      rw [hpr] at hout2
      have hgen : Except.ok (t.Generate properties g2.dynamicTemplates g2.defaultFields)
          = Except.ok out := hout2
      injection hgen with hgen
      subst hgen
      refine ⟨_, generate_dynamicTemplatesOf t _ _ _, ?_, rfl⟩
      rw [List.map_append]
      exact List.getLast?_concat _

/-- C7 witness: a concrete compile through `envOk`/`tpl0`. -/
theorem C7_witness :
    (Template.load envOk tpl0 [] g0).1 = Except.ok c7out ∧
    (∃ l, dynamicTemplatesOf tpl0.esVersion c7out = some l ∧
      l.getLast? = some (Value.obj (buildDynTmpl tpl0.esVersion)) ∧
      (Doc.get (buildDynTmpl tpl0.esVersion) "strings_as_keyword").isSome = true) :=
  ⟨rfl, (C7_deterministic_catchall_last envOk tpl0 [] g0 g0).2 c7out rfl⟩

/-- C4: with overwrite disabled, if the existence check reports the template
as present, both `LoadLegacyTemplate` and `LoadIndexTemplate` return a nil
error having issued exactly the one existence GET — in particular no PUT. -/
theorem C4_skip_no_put (env : Env) (c : ESClient) (config : TemplateConfig) (info : BeatInfo)
    (fields : Option Bytes) (migration : Bool) (g : Globals) (tpl : Option Template)
    (templateName : String)
    (hov : config.overwrite = false)
    (hinfo : ESLoader.templateInfo env config info c.version migration
      = Except.ok (tpl, templateName)) :
    ((ESLoader.legacyTemplateExists ⟨some c⟩ templateName).1 = true →
      ESLoader.LoadLegacyTemplate env ⟨some c⟩ config info fields migration g =
        (Except.ok (), [{ method := "GET", path := "/_cat/templates/" ++ templateName
                        , pipeline := "", params := [], body := none }])) ∧
    ((ESLoader.indexTemplateExists ⟨some c⟩ templateName).1 = true →
      ESLoader.LoadIndexTemplate env ⟨some c⟩ config info fields migration g =
        (Except.ok (), [{ method := "GET", path := indexTemplatePath ++ templateName
                        , pipeline := "", params := [], body := none }])) := by
  constructor
  · intro hex
    simp only [ESLoader.LoadLegacyTemplate, hinfo]
    rw [hex, hov, if_pos (show (true && !false) = true from rfl)]
    rfl
  · intro hex
    simp only [ESLoader.LoadIndexTemplate, hinfo]
    rw [hex, hov, if_pos (show (true && !false) = true from rfl)]
    rfl

/-- C4 witness: default (overwrite-disabled) config against a cluster whose
existence check answers "found". -/
theorem C4_witness :
    DefaultConfig.overwrite = false ∧
    ESLoader.templateInfo envOk DefaultConfig info0 esClient200.version false
      = Except.ok (some tpl0, "beat-7.0.0") ∧
    (ESLoader.legacyTemplateExists ⟨some esClient200⟩ "beat-7.0.0").1 = true ∧
    ESLoader.LoadLegacyTemplate envOk ⟨some esClient200⟩ DefaultConfig info0 none false g0 =
      (Except.ok (), [{ method := "GET", path := "/_cat/templates/beat-7.0.0", pipeline := ""
                      , params := [], body := none }]) :=
  ⟨rfl, rfl, rfl,
   (C4_skip_no_put envOk esClient200 DefaultConfig info0 none false g0 (some tpl0)
     "beat-7.0.0" rfl rfl).1 rfl⟩

/-- C6 (code bug): with Enabled=false, `FileLoader.Load` is a true no-op (no
write, nil error) as the claim says; but `ESLoader.LoadLegacyTemplate` checks
only the error of `templateInfo` and not the nil template, so it still issues
the existence GET (with an empty template name) and — when the check misses —
dereferences the nil template, which panics in Go (shown against a 404
client). -/
theorem C6_disabled_eval :
    FileLoader.Load envOk fileClient0 c6cfg info0 none false g0
      = (Except.ok (), []) ∧
    ESLoader.LoadLegacyTemplate envOk ⟨some esClient404⟩ c6cfg info0 none false g0 =
      (Except.error (GoErr.panic "invalid memory address or nil pointer dereference"),
       [{ method := "GET", path := "/_cat/templates/", pipeline := "", params := []
        , body := none }]) :=
  ⟨rfl, rfl⟩

/-- C10: with the JSON override enabled (and the template constructed), the
name carried through the existence check, the install paths and the
skip/success reporting is `config.JSON.Name`, not the compiler-derived
template name. -/
theorem C10_json_override_name (env : Env) (c : ESClient) (config : TemplateConfig)
    (info : BeatInfo) (fields : Option Bytes) (migration : Bool) (g : Globals) (t : Template)
    (hjson : config.json.enabled = true)
    (ht : templateBuilder.template env config info c.version migration = Except.ok (some t)) :
    ESLoader.templateInfo env config info c.version migration
      = Except.ok (some t, config.json.name) ∧
    ((ESLoader.LoadLegacyTemplate env ⟨some c⟩ config info fields migration g).2.head?.map
        ESRequest.path = some ("/_cat/templates/" ++ config.json.name)) ∧
    ((ESLoader.LoadIndexTemplate env ⟨some c⟩ config info fields migration g).2.head?.map
        ESRequest.path = some ("/_index_template/" ++ config.json.name)) ∧
    (∀ d, (ESLoader.loadLegacyTemplate c config.json.name d).2.map ESRequest.path
      = ["/_template/" ++ config.json.name]) ∧
    (∀ d, (ESLoader.loadIndexTemplate c config.json.name d).2.map ESRequest.path
      = ["/_index_template/" ++ config.json.name]) := by
  have hti : ESLoader.templateInfo env config info c.version migration
      = Except.ok (some t, config.json.name) := by
    simp only [ESLoader.templateInfo, ht]
    rw [if_pos hjson]
  refine ⟨hti, ?_, ?_, fun d => rfl, fun d => rfl⟩
  · simp only [ESLoader.LoadLegacyTemplate, hti]
    split
    · rfl
    · split
      · rfl
      · split
        · rfl
        · rfl
  · simp only [ESLoader.LoadIndexTemplate, hti]
    split
    · rfl
    · split
      · rfl
      · split
        · rfl
        · rfl

/-- C10 witness: the JSON override named `ovr` wins over the derived name
`beat-7.0.0`. -/
theorem C10_witness :
    c10cfg.json.enabled = true ∧
    ESLoader.templateInfo envOk c10cfg info0 esClient200.version false
      = Except.ok (some c10tmpl, "ovr") :=
  ⟨rfl,
   (C10_json_override_name envOk esClient200 c10cfg info0 none false g0 c10tmpl rfl rfl).1⟩
